import Mathlib

/-!
Verification of the EchoBot 9000 chat endpoint
(`netlify/functions/api.js`, route `POST /chat`).

The handler is embedded shallowly:

* JavaScript strings are `List Char` (`JSString`); the string methods the
  handler calls (`trim`, `toLowerCase`, `toUpperCase`, `includes`) are
  defined below, following ECMAScript semantics (the case maps cover the
  ASCII range, which the handler's fixed substrings and replies live in).
* The `message` field extracted from the request body is a `JSValue`
  (a missing field destructures to `undefined` in JavaScript).
* Each `new Date().toISOString()` read of the clock is modelled by the
  parameter `t : JSString`: the handler builds exactly one response, and
  every signature it emits embeds one current-clock reading.
* The `try` block is `chatTry`, returning `Except JSString HttpResponse`
  (`.error` models a thrown fault, carrying the fault's description, i.e.
  `error.message`); the `catch` block is `catchWrap`.
-/

namespace EchoBot

/-- JavaScript strings, as their lists of characters. -/
abbrev JSString := List Char

/-- The ECMAScript whitespace set trimmed by `String.prototype.trim`:
WhiteSpace (TAB, VT, FF, SP, NBSP, BOM and the Zs space separators) plus
the LineTerminator code points (LF, CR, LS, PS). -/
def jsIsWhitespace (c : Char) : Bool :=
  let n := c.toNat
  n == 9 || n == 10 || n == 11 || n == 12 || n == 13 || n == 32 ||
  n == 160 || n == 0x1680 || (0x2000 ≤ n && n ≤ 0x200A) ||
  n == 0x2028 || n == 0x2029 || n == 0x202F || n == 0x205F ||
  n == 0x3000 || n == 0xFEFF

/-- `String.prototype.trim`: drop leading and trailing whitespace. -/
def jsTrim (s : JSString) : JSString :=
  ((s.dropWhile jsIsWhitespace).reverse.dropWhile jsIsWhitespace).reverse

/-- Lower-case one character (the ASCII fragment of Unicode simple case
mapping, which covers every character the handler compares against). -/
def jsLowerChar (c : Char) : Char :=
  if 65 ≤ c.toNat && c.toNat ≤ 90 then Char.ofNat (c.toNat + 32) else c

/-- Upper-case one character (ASCII fragment, see `jsLowerChar`). -/
def jsUpperChar (c : Char) : Char :=
  if 97 ≤ c.toNat && c.toNat ≤ 122 then Char.ofNat (c.toNat - 32) else c

/-- `String.prototype.toLowerCase`. -/
def jsToLower (s : JSString) : JSString := s.map jsLowerChar

/-- `String.prototype.toUpperCase`. -/
def jsToUpper (s : JSString) : JSString := s.map jsUpperChar

/-- `s.includes(pat)`: substring containment. -/
def jsIncludes (s pat : JSString) : Bool := decide (pat <:+: s)

/-- The JavaScript values the `message` field of the request body can hold.
A request body without a `message` field destructures to `undefined`.
Objects, arrays and functions are collapsed into `obj`: the handler only
ever asks whether the value is truthy and whether it is a string. -/
inductive JSValue where
  | undefined
  | null
  | bool (b : Bool)
  | num (n : Int)
  | str (s : JSString)
  | obj
  deriving DecidableEq, Repr

/-- JavaScript truthiness, as tested by `!message`. -/
def JSValue.truthy : JSValue → Bool
  | .undefined => false
  | .null => false
  | .bool b => b
  | .num n => n != 0
  | .str s => !s.isEmpty
  | .obj => true

/-- `typeof message === 'string'`. -/
def JSValue.isString : JSValue → Bool
  | .str _ => true
  | _ => false

/-- Calling `.trim()` on a JS value: a TypeError escapes unless the value
is a string. -/
def JSValue.callTrim : JSValue → Except JSString JSString
  | .str s => .ok (jsTrim s)
  | _ => .error "TypeError: message.trim is not a function".data

/-- Calling `.toLowerCase()` on a JS value. -/
def JSValue.callToLowerCase : JSValue → Except JSString JSString
  | .str s => .ok (jsToLower s)
  | _ => .error "TypeError: message.toLowerCase is not a function".data

/-- Calling `.toUpperCase()` on a JS value. -/
def JSValue.callToUpperCase : JSValue → Except JSString JSString
  | .str s => .ok (jsToUpper s)
  | _ => .error "TypeError: message.toUpperCase is not a function".data

/-- The JSON body plus status code sent by `res.status(...).json({...})`.
A field the handler's object literal omits is `none`. -/
structure HttpResponse where
  status : Nat
  response : Option JSString
  error : Option JSString
  details : Option JSString
  backendSignature : Option JSString
  deriving DecidableEq, Repr

/-- `'Message is required and must be a non-empty string.'` (line 61). -/
def validationErrorText : JSString :=
  "Message is required and must be a non-empty string.".data

/-- `'An unexpected error occurred while processing your request.'` (line 103). -/
def internalErrorText : JSString :=
  "An unexpected error occurred while processing your request.".data

/-- `'Greetings, human! How can I assist you?'` (line 73). -/
def greetingText : JSString :=
  "Greetings, human! How can I assist you?".data

/-- The bot's display name appearing in every signature. -/
def botName : JSString := "EchoBot 9000".data

/-- `` `Error processed by EchoBot 9000 @ ${new Date().toISOString()}` ``
with `t` standing for the `toISOString()` result (lines 62 and 105). -/
def errorSignature (t : JSString) : JSString :=
  "Error processed by EchoBot 9000 @ ".data ++ t

/-- `` `Processed by EchoBot 9000 @ ${new Date().toISOString()}` `` (line 82). -/
def processedSignature (t : JSString) : JSString :=
  "Processed by EchoBot 9000 @ ".data ++ t

/-- The 400 body of the validation branch (lines 60–63). -/
def validationResponse (t : JSString) : HttpResponse :=
  { status := 400
    response := none
    error := some validationErrorText
    details := none
    backendSignature := some (errorSignature t) }

/-- The 200 body of the success path (lines 89–92). -/
def successResponse (botResponse t : JSString) : HttpResponse :=
  { status := 200
    response := some botResponse
    error := none
    details := none
    backendSignature := some (processedSignature t) }

/-- The 500 body of the catch block (lines 102–106); `d` is `error.message`. -/
def internalErrorResponse (d t : JSString) : HttpResponse :=
  { status := 500
    response := none
    error := some internalErrorText
    details := some d
    backendSignature := some (errorSignature t) }

/-- The `if (!message || typeof message !== 'string' || message.trim() === '')`
condition of line 57.  The third disjunct is only reached (short-circuit)
when `message` is a string, which the `match` mirrors. -/
def validationFails (m : JSValue) : Bool :=
  !m.truthy || !m.isString ||
    (match m with
     | .str s => (jsTrim s).isEmpty
     | _ => false)

/-- The `try` block of the handler (lines 52–92).  `.error` is a thrown
fault.  The single three-disjunct `if` of line 57 appears as two nested
tests because its third disjunct calls `.trim()`, which JavaScript only
evaluates (and which can only throw) after the first two disjuncts are
known false. -/
def chatTry (message : JSValue) (t : JSString) : Except JSString HttpResponse :=
  if !message.truthy || !message.isString then
    .ok (validationResponse t)
  else
    match message.callTrim with
    | .error e => .error e
    | .ok trimmed =>
      if trimmed.isEmpty then
        .ok (validationResponse t)
      else
        match message.callToLowerCase with
        | .error e => .error e
        | .ok lowerCaseMessage =>
          if jsIncludes lowerCaseMessage "hello".data ||
             jsIncludes lowerCaseMessage "hi".data then
            .ok (successResponse greetingText t)
          else
            match message.callToUpperCase with
            | .error e => .error e
            | .ok upper => .ok (successResponse ("BOT SAYS: ".data ++ upper) t)

/-- The `catch` block (lines 94–107): a fault becomes the 500 response. -/
def catchWrap (t : JSString) (r : Except JSString HttpResponse) : HttpResponse :=
  match r with
  | .ok resp => resp
  | .error e => internalErrorResponse e t

/-- The whole `app.post('/chat')` handler: the try block under the catch. -/
def chatHandler (message : JSValue) (t : JSString) : HttpResponse :=
  catchWrap t (chatTry message t)

/-! ### Helper lemmas -/

/-- A non-empty pattern none of whose characters satisfies `f` stays an
infix after `dropWhile f`. -/
theorem isInfix_dropWhile (f : Char → Bool) (p l : List Char)
    (hp : p ≠ []) (hpc : ∀ c ∈ p, f c = false) (h : p <:+: l) :
    p <:+: l.dropWhile f := by
  induction l with
  | nil =>
    rw [List.infix_nil] at h
    exact absurd h hp
  | cons a l ih =>
    rw [List.dropWhile_cons]
    by_cases ha : f a
    · rw [if_pos ha]
      apply ih
      obtain ⟨u, v, huv⟩ := h
      cases u with
      | nil =>
        cases p with
        | nil => exact absurd rfl hp
        | cons q qs =>
          simp only [List.nil_append, List.cons_append, List.cons.injEq] at huv
          have hq : f q = false := hpc q (List.mem_cons_self q qs)
          rw [huv.1] at hq
          rw [hq] at ha
          exact absurd ha (by simp)
      | cons b u =>
        simp only [List.cons_append, List.cons.injEq] at huv
        exact ⟨u, v, huv.2⟩
    · rw [if_neg ha]
      exact h

/-- The trimmed string is an infix of the original. -/
theorem jsTrim_infix_self (s : JSString) : jsTrim s <:+: s := by
  have h1 : s.dropWhile jsIsWhitespace <:+ s := List.dropWhile_suffix _
  have h2 : (s.dropWhile jsIsWhitespace).reverse.dropWhile jsIsWhitespace <:+
      (s.dropWhile jsIsWhitespace).reverse := List.dropWhile_suffix _
  have h3 : jsTrim s <+: s.dropWhile jsIsWhitespace := by
    have h2' :
        (((s.dropWhile jsIsWhitespace).reverse.dropWhile jsIsWhitespace).reverse).reverse <:+
          (s.dropWhile jsIsWhitespace).reverse := by
      rw [List.reverse_reverse]
      exact h2
    exact List.reverse_suffix.mp h2'
  exact h3.isInfix.trans h1.isInfix

/-- Trimming never creates or destroys an occurrence of a non-empty,
whitespace-free pattern. -/
theorem isInfix_jsTrim_iff (p s : JSString) (hp : p ≠ [])
    (hpc : ∀ c ∈ p, jsIsWhitespace c = false) :
    p <:+: jsTrim s ↔ p <:+: s := by
  constructor
  · intro h
    exact h.trans (jsTrim_infix_self s)
  · intro h
    have h1 : p <:+: s.dropWhile jsIsWhitespace :=
      isInfix_dropWhile _ _ _ hp hpc h
    have h2 : p.reverse <:+: (s.dropWhile jsIsWhitespace).reverse :=
      List.reverse_infix.mpr h1
    have hp' : p.reverse ≠ [] := by
      intro hcon
      exact hp (by simpa using hcon)
    have hpc' : ∀ c ∈ p.reverse, jsIsWhitespace c = false := by
      intro c hc
      exact hpc c (List.mem_reverse.mp hc)
    have h3 : p.reverse <:+:
        ((s.dropWhile jsIsWhitespace).reverse).dropWhile jsIsWhitespace :=
      isInfix_dropWhile _ _ _ hp' hpc' h2
    have h4 : p.reverse <:+:
        ((((s.dropWhile jsIsWhitespace).reverse).dropWhile jsIsWhitespace).reverse).reverse := by
      rw [List.reverse_reverse]
      exact h3
    exact List.reverse_infix.mp h4

/-- An empty trim forces an empty source only in one direction we need:
a non-empty trim forces a non-empty source. -/
theorem ne_nil_of_jsTrim_ne_nil (s : JSString) (h : jsTrim s ≠ []) : s ≠ [] := by
  intro hs
  rw [hs] at h
  exact h rfl

/-- On a valid string the handler reduces to the two-branch transformation. -/
theorem chatHandler_str (s t : JSString) (hv : jsTrim s ≠ []) :
    chatHandler (.str s) t =
      if jsIncludes (jsToLower s) "hello".data || jsIncludes (jsToLower s) "hi".data then
        successResponse greetingText t
      else
        successResponse ("BOT SAYS: ".data ++ jsToUpper s) t := by
  have hs : s ≠ [] := ne_nil_of_jsTrim_ne_nil s hv
  have hse : s.isEmpty = false := by simp [List.isEmpty_iff, hs]
  have htr : (jsTrim s).isEmpty = false := by simp [List.isEmpty_iff, hv]
  simp only [chatHandler, chatTry, JSValue.truthy, JSValue.isString,
    JSValue.callTrim, JSValue.callToLowerCase, JSValue.callToUpperCase,
    hse, htr, Bool.not_true, Bool.not_false, Bool.not_not, Bool.or_false,
    Bool.false_or, Bool.false_eq_true, if_false]
  split
  · rfl
  · rfl

/-- The greeting literal is never a `BOT SAYS: ` echo. -/
theorem greeting_ne_botsays (u : JSString) :
    greetingText ≠ "BOT SAYS: ".data ++ u := by
  intro h
  have h1 : greetingText.head? = ("BOT SAYS: ".data ++ u).head? := by rw [h]
  have h2 : greetingText.head? = some 'G' := rfl
  have h3 : ("BOT SAYS: ".data ++ u).head? = some 'B' := rfl
  rw [h2, h3] at h1
  exact absurd h1 (by decide)

/-- Whatever fails validation is answered with the 400 body. -/
theorem chatHandler_invalid (m : JSValue) (t : JSString)
    (h : validationFails m = true) :
    chatHandler m t = validationResponse t := by
  cases m with
  | str s =>
    by_cases he : s.isEmpty
    · simp [chatHandler, chatTry, catchWrap, JSValue.truthy, he]
    · have htr : (jsTrim s).isEmpty = true := by
        simp only [validationFails, JSValue.truthy, JSValue.isString,
          Bool.not_true, Bool.or_false, he, Bool.not_false, Bool.false_or] at h
        exact h
      simp [chatHandler, chatTry, catchWrap, JSValue.truthy, JSValue.isString,
        JSValue.callTrim, he, htr]
  | undefined => rfl
  | null => rfl
  | bool b =>
    cases b with
    | false => rfl
    | true => rfl
  | num n =>
    by_cases hn : n = 0
    · subst hn
      rfl
    · simp [chatHandler, chatTry, catchWrap, JSValue.truthy, JSValue.isString, hn]
  | obj => rfl

/-- Passing validation forces the message to be a string with a non-empty trim. -/
theorem validationFails_false (m : JSValue) (h : validationFails m = false) :
    ∃ s, m = JSValue.str s ∧ jsTrim s ≠ [] := by
  cases m with
  | str s =>
    refine ⟨s, rfl, ?_⟩
    intro hcon
    apply absurd h
    simp [validationFails, JSValue.truthy, JSValue.isString, hcon]
  | undefined => simp [validationFails, JSValue.truthy, JSValue.isString] at h
  | null => simp [validationFails, JSValue.truthy, JSValue.isString] at h
  | bool b => simp [validationFails, JSValue.truthy, JSValue.isString] at h
  | num n => simp [validationFails, JSValue.truthy, JSValue.isString] at h
  | obj => simp [validationFails, JSValue.truthy, JSValue.isString] at h

/-! ### The claims -/

/-- Claim C1: a request whose `message` is absent, not a string, or empty
after trimming is answered with HTTP 400, the exact error text, an
error-tagged signature, and no success fields. -/
theorem chat_validation_returns_400 (m : JSValue) (t : JSString)
    (h : m = JSValue.undefined ∨ m.isString = false ∨
         ∃ s, m = JSValue.str s ∧ jsTrim s = []) :
    chatHandler m t =
      { status := 400
        response := none
        error := some "Message is required and must be a non-empty string.".data
        details := none
        backendSignature := some ("Error processed by EchoBot 9000 @ ".data ++ t) } := by
  have hv : validationFails m = true := by
    rcases h with h | h | ⟨s, hm, hs⟩
    · subst h
      rfl
    · cases m <;> simp_all [validationFails, JSValue.isString, JSValue.truthy]
    · subst hm
      simp [validationFails, JSValue.truthy, JSValue.isString, List.isEmpty_iff, hs]
  rw [chatHandler_invalid m t hv]
  rfl

/-- Witness for C1: the absent `message` (destructured to `undefined`). -/
theorem chat_validation_returns_400_witness :
    chatHandler JSValue.undefined "2025-01-01T00:00:00.000Z".data =
      { status := 400
        response := none
        error := some "Message is required and must be a non-empty string.".data
        details := none
        backendSignature :=
          some ("Error processed by EchoBot 9000 @ ".data ++ "2025-01-01T00:00:00.000Z".data) } :=
  chat_validation_returns_400 JSValue.undefined "2025-01-01T00:00:00.000Z".data (Or.inl rfl)

/-- Claim C2: a valid message is answered with HTTP 200, and the reply is
the fixed greeting exactly when the trimmed, lower-cased message contains
`hello` or `hi` as a substring. -/
theorem chat_greeting_200 (s t : JSString) (hv : jsTrim s ≠ []) :
    (chatHandler (JSValue.str s) t).status = 200 ∧
    ((chatHandler (JSValue.str s) t).response = some greetingText ↔
      (jsIncludes (jsTrim (jsToLower s)) "hello".data ||
       jsIncludes (jsTrim (jsToLower s)) "hi".data) = true) := by
  rw [chatHandler_str s t hv]
  have hhello : jsIncludes (jsTrim (jsToLower s)) "hello".data =
      jsIncludes (jsToLower s) "hello".data := by
    simp only [jsIncludes, decide_eq_decide]
    exact isInfix_jsTrim_iff _ _ (by decide) (by decide)
  have hhi : jsIncludes (jsTrim (jsToLower s)) "hi".data =
      jsIncludes (jsToLower s) "hi".data := by
    simp only [jsIncludes, decide_eq_decide]
    exact isInfix_jsTrim_iff _ _ (by decide) (by decide)
  rw [hhello, hhi]
  split
  next hcond =>
    exact ⟨rfl, by simp [successResponse, hcond]⟩
  next hcond =>
    refine ⟨rfl, ?_, ?_⟩
    · intro habs
      exact absurd (Option.some.inj habs).symm (greeting_ne_botsays (jsToUpper s))
    · intro hc
      exact absurd hc hcond

/-- Witness for C2: `"Hello there"` is answered with the greeting. -/
theorem chat_greeting_200_witness :
    (chatHandler (JSValue.str "Hello there".data) "2025-01-01T00:00:00.000Z".data).response =
      some greetingText :=
  ((chat_greeting_200 "Hello there".data "2025-01-01T00:00:00.000Z".data
    (by decide)).2).mpr (by decide)

/-- Claim C3: a valid message containing neither greeting substring is
answered with HTTP 200 and `BOT SAYS: ` followed by the original message
upper-cased. -/
theorem chat_echo_200 (s t : JSString) (hv : jsTrim s ≠ [])
    (hno : (jsIncludes (jsToLower s) "hello".data ||
            jsIncludes (jsToLower s) "hi".data) = false) :
    chatHandler (JSValue.str s) t =
      { status := 200
        response := some ("BOT SAYS: ".data ++ jsToUpper s)
        error := none
        details := none
        backendSignature := some ("Processed by EchoBot 9000 @ ".data ++ t) } := by
  rw [chatHandler_str s t hv, if_neg (by simp [hno])]
  rfl

/-- Witness for C3: `"test"` is echoed as `BOT SAYS: TEST`. -/
theorem chat_echo_200_witness :
    chatHandler (JSValue.str "test".data) "2025-01-01T00:00:00.000Z".data =
      { status := 200
        response := some "BOT SAYS: TEST".data
        error := none
        details := none
        backendSignature :=
          some "Processed by EchoBot 9000 @ 2025-01-01T00:00:00.000Z".data } :=
  (chat_echo_200 "test".data "2025-01-01T00:00:00.000Z".data
    (by decide) (by decide)).trans (by decide)

/-- Claim C4: substring containment of `hi` — even inside an unrelated
word — always yields the greeting, never the `BOT SAYS: ` echo. -/
theorem chat_hi_substring_priority (s t : JSString) (hv : jsTrim s ≠ [])
    (hhi : jsIncludes (jsToLower s) "hi".data = true) :
    (chatHandler (JSValue.str s) t).response = some greetingText ∧
    ∀ u, (chatHandler (JSValue.str s) t).response ≠ some ("BOT SAYS: ".data ++ u) := by
  rw [chatHandler_str s t hv, if_pos (by simp [hhi])]
  refine ⟨rfl, ?_⟩
  intro u h
  exact absurd (Option.some.inj h) (greeting_ne_botsays u)

/-- Witness for C4: `"this"` contains `hi` and is answered with the greeting. -/
theorem chat_hi_substring_priority_witness :
    (chatHandler (JSValue.str "this".data) "2025-01-01T00:00:00.000Z".data).response =
      some greetingText :=
  (chat_hi_substring_priority "this".data "2025-01-01T00:00:00.000Z".data
    (by decide) (by decide)).1

/-- Claim C5: every response — 200, 400 or 500 — carries a non-empty
`backendSignature` of the form `<Processed|Error processed> by EchoBot 9000
@ <timestamp>`, where `t` is the `toISOString()` clock reading embedded at
response-construction time: 200 responses are tagged `Processed`, 400 and
500 responses `Error processed`. -/
theorem chat_signature_form (m : JSValue) (d t : JSString) :
    (∃ tag : JSString,
      tag ≠ [] ∧
      (chatHandler m t).backendSignature =
        some (tag ++ " by ".data ++ botName ++ " @ ".data ++ t) ∧
      ((chatHandler m t).status = 200 ∧ tag = "Processed".data ∨
       (chatHandler m t).status = 400 ∧ tag = "Error processed".data)) ∧
    (catchWrap t (Except.error d)).status = 500 ∧
    (catchWrap t (Except.error d)).backendSignature =
      some ("Error processed".data ++ " by ".data ++ botName ++ " @ ".data ++ t) := by
  refine ⟨?_, rfl, rfl⟩
  by_cases hv : validationFails m = true
  · refine ⟨"Error processed".data, by decide, ?_, Or.inr ⟨?_, rfl⟩⟩
    · rw [chatHandler_invalid m t hv]
      rfl
    · rw [chatHandler_invalid m t hv]
      rfl
  · obtain ⟨s, hm, hs⟩ := validationFails_false m (by simpa using hv)
    subst hm
    refine ⟨"Processed".data, by decide, ?_, Or.inl ⟨?_, rfl⟩⟩
    · rw [chatHandler_str s t hs]
      split
      · rfl
      · rfl
    · rw [chatHandler_str s t hs]
      split
      · rfl
      · rfl

/-- Claim C6: a fault thrown inside the try block is caught and reported
as HTTP 500 with the fixed generic message, `details` set to the fault's
description, and an error-tagged signature; `catchWrap` is total, so the
fault never escapes the handler. -/
theorem chat_catch_500 (d t : JSString) :
    catchWrap t (Except.error d) =
      { status := 500
        response := none
        error := some "An unexpected error occurred while processing your request.".data
        details := some d
        backendSignature := some ("Error processed by EchoBot 9000 @ ".data ++ t) } := rfl

/-- Claim C7: the endpoint is deterministic modulo the timestamp — two
invocations on the same message agree on status, `response`, `error` and
`details`, whatever the two clock readings are. -/
theorem chat_deterministic_modulo_timestamp (m : JSValue) (t₁ t₂ : JSString) :
    (chatHandler m t₁).status = (chatHandler m t₂).status ∧
    (chatHandler m t₁).response = (chatHandler m t₂).response ∧
    (chatHandler m t₁).error = (chatHandler m t₂).error ∧
    (chatHandler m t₁).details = (chatHandler m t₂).details := by
  by_cases hv : validationFails m = true
  · rw [chatHandler_invalid m t₁ hv, chatHandler_invalid m t₂ hv]
    exact ⟨rfl, rfl, rfl, rfl⟩
  · obtain ⟨s, hm, hs⟩ := validationFails_false m (by simpa using hv)
    subst hm
    rw [chatHandler_str s t₁ hs, chatHandler_str s t₂ hs]
    split
    · exact ⟨rfl, rfl, rfl, rfl⟩
    · exact ⟨rfl, rfl, rfl, rfl⟩

/-- Claim C8: on a message that is a string with a non-empty trim the try
block returns normally (no JavaScript operation it performs can throw), so
the catch branch is unreachable and the endpoint answers HTTP 200. -/
theorem chat_try_total_200 (s t : JSString) (hv : jsTrim s ≠ []) :
    (∃ r, chatTry (JSValue.str s) t = Except.ok r) ∧
    (chatHandler (JSValue.str s) t).status = 200 := by
  constructor
  · have hse : s.isEmpty = false := by
      simp [List.isEmpty_iff, ne_nil_of_jsTrim_ne_nil s hv]
    have htr : (jsTrim s).isEmpty = false := by simp [List.isEmpty_iff, hv]
    simp only [chatTry, JSValue.truthy, JSValue.isString, JSValue.callTrim,
      JSValue.callToLowerCase, JSValue.callToUpperCase, hse, htr,
      Bool.not_true, Bool.not_false, Bool.not_not, Bool.or_false,
      Bool.false_eq_true, if_false]
    split
    · exact ⟨_, rfl⟩
    · exact ⟨_, rfl⟩
  · rw [chatHandler_str s t hv]
    split
    · rfl
    · rfl

/-- Witness for C8: `"abc"` is processed without a fault and gets a 200. -/
theorem chat_try_total_200_witness :
    (∃ r, chatTry (JSValue.str "abc".data) "2025-01-01T00:00:00.000Z".data = Except.ok r) ∧
    (chatHandler (JSValue.str "abc".data) "2025-01-01T00:00:00.000Z".data).status = 200 :=
  chat_try_total_200 "abc".data "2025-01-01T00:00:00.000Z".data (by decide)

/-- Claim C9: the echo branch upper-cases the original, un-trimmed message
character by character, and upper-casing fixes every whitespace character,
so surrounding whitespace survives into the reply. -/
theorem chat_echo_untrimmed (s t : JSString) (hv : jsTrim s ≠ [])
    (hno : (jsIncludes (jsToLower s) "hello".data ||
            jsIncludes (jsToLower s) "hi".data) = false) :
    (chatHandler (JSValue.str s) t).response =
      some ("BOT SAYS: ".data ++ jsToUpper s) ∧
    jsToUpper s = s.map jsUpperChar ∧
    ∀ c ∈ s, jsIsWhitespace c = true → jsUpperChar c = c := by
  refine ⟨?_, rfl, ?_⟩
  · rw [chatHandler_str s t hv, if_neg (by simp [hno])]
    rfl
  · intro c _ hc
    have hn : ¬(97 ≤ c.toNat ∧ c.toNat ≤ 122) := by
      simp only [jsIsWhitespace, Bool.or_eq_true, beq_iff_eq, Bool.and_eq_true,
        decide_eq_true_eq] at hc
      omega
    have hb : ((97 ≤ c.toNat && c.toNat ≤ 122) = true) → False := by
      simp only [Bool.and_eq_true, decide_eq_true_eq]
      exact hn
    simp only [jsUpperChar]
    rw [if_neg hb]

/-- Witness for C9: `" test "` is echoed as `BOT SAYS:  TEST `, whitespace
preserved. -/
theorem chat_echo_untrimmed_witness :
    (chatHandler (JSValue.str " test ".data) "2025-01-01T00:00:00.000Z".data).response =
      some "BOT SAYS:  TEST ".data :=
  ((chat_echo_untrimmed " test ".data "2025-01-01T00:00:00.000Z".data
    (by decide) (by decide)).1).trans (by decide)

/-- Claim C10: a request that fails validation gets a body holding exactly
`error` and `backendSignature`: `details` and `response` are absent from
the 400 response. -/
theorem chat_validation_fields_exact (m : JSValue) (t : JSString)
    (h : validationFails m = true) :
    (chatHandler m t).status = 400 ∧
    (chatHandler m t).details = none ∧
    (chatHandler m t).response = none ∧
    (chatHandler m t).error = some validationErrorText ∧
    (chatHandler m t).backendSignature = some (errorSignature t) := by
  rw [chatHandler_invalid m t h]
  exact ⟨rfl, rfl, rfl, rfl, rfl⟩

/-- Witness for C10: the whitespace-only message `"   "`. -/
theorem chat_validation_fields_exact_witness :
    (chatHandler (JSValue.str "   ".data) "2025-01-01T00:00:00.000Z".data).details = none ∧
    (chatHandler (JSValue.str "   ".data) "2025-01-01T00:00:00.000Z".data).response = none := by
  have h := chat_validation_fields_exact (JSValue.str "   ".data)
    "2025-01-01T00:00:00.000Z".data (by decide)
  exact ⟨h.2.1, h.2.2.1⟩

end EchoBot
